import Mathlib

/-!
Verification development for the NFL WhatsApp bot repository
(Public-ESPN-API).  The repository holds three near-duplicate Express
applications: the file `src/unnamed/part_000` and two variants concatenated
in `src/app.js` (called V1 and V2 below).  All state lives in module-level
maps (`optInUsers`, `lastMessages`, `userPrompts`) plus the set of node-cron
tasks; HTTP effects (axios GET/POST) are modelled by explicit parameters:
`FetchResult` for the team-list endpoint, `ScoreboardResult` for the
scoreboard endpoint, and a Bool for the outcome of the WhatsApp POST.

Every definition is transcribed from the JavaScript source; doc comments on
each definition name the function and variant it embeds.
-/

namespace NFLBot

/-! ### String helpers (structural recursion, so that concrete runs reduce) -/

/-- JS `String.prototype.toLowerCase` on one ASCII character. -/
def jsLowerChar (c : Char) : Char :=
  if 'A' ≤ c ∧ c ≤ 'Z' then Char.ofNat (c.toNat + 32) else c

/-- Whitespace test used by JS `trim` (ASCII subset). -/
def isWsB (c : Char) : Bool :=
  c == ' ' || c == '\t' || c == '\n' || c == '\r'

/-- JS `trim`: drop whitespace at both ends. -/
def trimChars (l : List Char) : List Char :=
  ((l.dropWhile isWsB).reverse.dropWhile isWsB).reverse

/-- JS `String.prototype.split(sep)` for a one-character separator;
`"".split(sep)` gives `[""]`, matching JS. -/
def splitChar (c : Char) : List Char → List (List Char)
  | [] => [[]]
  | x :: xs =>
    match splitChar c xs with
    | [] => [[x]]
    | y :: ys => if x == c then [] :: y :: ys else (x :: y) :: ys

/-- JS `Array.prototype.join(sep)`. -/
def joinWith (sep : String) : List String → String
  | [] => ""
  | [x] => x
  | x :: y :: ys => x ++ sep ++ joinWith sep (y :: ys)

/-- Bool test that `p` is an initial segment of `s` (JS `startsWith`). -/
def leadsWith : List Char → List Char → Bool
  | [], _ => true
  | _ :: _, [] => false
  | p :: ps, s :: ss => p == s && leadsWith ps ss

/-- JS `toLowerCase` on a whole string. -/
def lowerStr (s : String) : String := ⟨s.data.map jsLowerChar⟩

/-- JS `trim` on a whole string. -/
def strTrim (s : String) : String := ⟨trimChars s.data⟩

/-- JS `slice(n)` (ASCII strings, so code units = characters). -/
def strDrop (n : Nat) (s : String) : String := ⟨s.data.drop n⟩

/-- Split a string on a character, returning strings. -/
def splitStr (c : Char) (s : String) : List String :=
  (splitChar c s.data).map String.mk

/-- Leading decimal-digit run accumulator for `parseInt`. -/
def leadingNatAux : List Char → Nat → Nat
  | [], acc => acc
  | c :: cs, acc =>
    if '0' ≤ c ∧ c ≤ '9' then leadingNatAux cs (acc * 10 + (c.toNat - 48)) else acc

/-- Whether the list opens with a decimal digit. -/
def hasLeadingDigit : List Char → Bool
  | [] => false
  | c :: _ => decide ('0' ≤ c ∧ c ≤ '9')

/-- JS `parseInt(s, 10)`: skip leading whitespace, optional sign, read the
maximal leading digit run, `NaN` (here `none`) if there is none. -/
def parseIntJs (l : List Char) : Option Int :=
  let t := l.dropWhile isWsB
  match t with
  | '-' :: rest =>
    if hasLeadingDigit rest then some (-(leadingNatAux rest 0 : Int)) else none
  | '+' :: rest =>
    if hasLeadingDigit rest then some ((leadingNatAux rest 0 : Int)) else none
  | _ =>
    if hasLeadingDigit t then some ((leadingNatAux t 0 : Int)) else none

/-! ### Association lists standing for plain JS objects -/

/-- JS object read `obj[k]`: `none` is `undefined`. -/
def lookupS {α : Type} : List (String × α) → String → Option α
  | [], _ => none
  | (k', v') :: rest, k => if k' = k then some v' else lookupS rest k

/-- JS object write `obj[k] = v`: overwrite in place or append. -/
def insertS {α : Type} : List (String × α) → String → α → List (String × α)
  | [], k, v => [(k, v)]
  | (k', v') :: rest, k, v =>
    if k' = k then (k, v) :: rest else (k', v') :: insertS rest k v

/-! ### Data model -/

/-- One entry of `optInUsers`: `{ teams, frequency, job? }` (part_000/V1).
`job` is the index of the cron task stored on the record by
`scheduleNflUpdates`. -/
structure UserRec where
  teams : List String
  frequency : Int
  job : Option Nat := none
deriving Repr, DecidableEq

/-- A node-cron task as registered by `cron.schedule`:  the callback closure
captures the owning number, the user record read at schedule time (its
`teams`), and the `*/frequency * * * *` expression.  `running` is flipped by
`task.stop()`; node-cron keeps stopped tasks in its registry. -/
structure CronTask where
  freqMinutes : Int
  owner : String
  teams : List String
  running : Bool
deriving Repr, DecidableEq

/-- A row of the team-list endpoint response
(`response.data.sports[0].leagues[0].teams`). -/
structure TeamRec where
  displayName : String
  recordSummary : String
  standingSummary : String
deriving Repr, DecidableEq

/-- Outcome of one axios GET against the team-list endpoint. -/
inductive FetchResult
  | ok (teams : List TeamRec)
  | err
deriving Repr, DecidableEq

/-- One scoreboard event (both competitors and their scores). -/
structure GameEvent where
  homeTeam : String
  awayTeam : String
  homeScore : String
  awayScore : String
deriving Repr, DecidableEq

/-- Outcome of one axios GET against the scoreboard endpoint. -/
inductive ScoreboardResult
  | ok (events : List GameEvent)
  | err
deriving Repr, DecidableEq

/-- The mutable module-level state of the part_000 / V1 applications,
plus an outbound log recording every WhatsApp POST actually dispatched. -/
structure AppState where
  optInUsers : List (String × UserRec)
  lastMessages : List (String × String)
  userPrompts : List String
  tasks : List CronTask
  sent : List (String × String)
deriving Repr, DecidableEq

/-- The state at process start: all maps empty, no cron tasks. -/
def emptyState : AppState := ⟨[], [], [], [], []⟩

/-- A JS runtime error escaping a function. -/
inductive JsError
  | referenceError (name : String)
  | typeError
deriving Repr, DecidableEq

/-! ### part_000 core functions -/

/-- The duplicate test opening part_000 `sendMessage`:
`lastMessages[number] && lastMessages[number] === message`
(an empty string is falsy, `undefined` is falsy). -/
def dupCheck (last : Option String) (message : String) : Bool :=
  match last with
  | some prev => decide (prev ≠ "" ∧ prev = message)
  | none => false

/-- part_000 `sendMessage(message, number)`: skip when the duplicate test
fires; otherwise POST to the WhatsApp API (outcome `ok`), and only after a
successful POST record `lastMessages[number] = message`.  On failure the
catch block only logs, leaving all state unchanged. -/
def sendMessage (ok : Bool) (message number : String) (s : AppState) : AppState :=
  if dupCheck (lookupS s.lastMessages number) message then s
  else if ok then
    { s with sent := s.sent ++ [(number, message)],
             lastMessages := insertS s.lastMessages number message }
  else s

/-- part_000 `getTeamInfo(teamName)`: one GET against the team endpoint;
on success find the team by case-insensitive display name and render either
its info line or a not-found line; the catch returns an error string. -/
def getTeamInfo (up : FetchResult) (teamName : String) : String :=
  match up with
  | .err => "Error fetching team info."
  | .ok teams =>
    match teams.find? (fun t => lowerStr t.displayName == lowerStr teamName) with
    | some t =>
      t.displayName ++ " Info:\nWins: " ++ t.recordSummary ++ "\nRank: " ++ t.standingSummary
    | none => "Team " ++ teamName ++ " not found."

/-- `getTeamInfo` together with the number of team-endpoint GETs it issues:
the function body opens with `axios.get(nflTeamApiUrl)`, so every call costs
exactly one GET, error or not. -/
def getTeamInfoF (up : FetchResult) (teamName : String) : String × Nat :=
  (getTeamInfo up teamName, 1)

/-- Render the per-event lines of `getNflScores` (each ends in a newline,
as the JS `message +=` loop does). -/
def scoreLines : List GameEvent → String
  | [] => ""
  | e :: es =>
    e.homeTeam ++ " vs " ++ e.awayTeam ++ ": " ++ e.homeScore ++ " - " ++ e.awayScore ++ "\n"
      ++ scoreLines es

/-- part_000 `getNflScores` reduced to the `message` field of its result
(the callers only use `scoresData.message`). -/
def getNflScores (sb : ScoreboardResult) : String :=
  match sb with
  | .err => "Error fetching NFL scores."
  | .ok evs =>
    if evs.isEmpty then "No games are currently available."
    else "NFL Scores:\n" ++ scoreLines evs

/-- One iteration of the `Object.keys(optInUsers).forEach` body of
part_000 `scheduleNflUpdates`: when the user has a non-empty team list,
register a fresh cron task (the previous task, if any, is neither stopped
nor removed) and store its index in `user.job`. -/
def scheduleUser (s : AppState) (number : String) : AppState :=
  match lookupS s.optInUsers number with
  | none => s
  | some u =>
    if u.teams.length > 0 then
      { s with
        tasks := s.tasks ++ [⟨u.frequency, number, u.teams, true⟩],
        optInUsers := insertS s.optInUsers number { u with job := some s.tasks.length } }
    else s

/-- part_000 `scheduleNflUpdates()`: iterate the schedule step over every
key of `optInUsers` (the key set is not changed by the loop body, so
folding over the initial key list is the JS iteration order). -/
def scheduleNflUpdates (s : AppState) : AppState :=
  (s.optInUsers.map Prod.fst).foldl scheduleUser s

/-- Team-names argument of the follow command:
`incomingMsg.slice(7).trim()` (part_000 line 82; V1 uses `slice(7, -1)`,
additionally dropping the final character). -/
def followTeamNames (incomingMsg : String) : String :=
  strTrim (strDrop 7 incomingMsg)

/-- Frequency argument of the follow command:
`parseInt(parts[parts.length - 1], 10)` where
`parts = incomingMsg.toLowerCase().split(' ')`. -/
def followFrequency (incomingMsg : String) : Option Int :=
  parseIntJs (((splitChar ' ' (lowerStr incomingMsg).data).getLast?).getD [])

/-- part_000 follow handler (webhook lines 81-93): when the trailing token
parses as an integer, stop the previous job of this number if one is
recorded, overwrite `optInUsers[fromNumber]` with the new team list and
frequency (no minimum or positivity check on the frequency), rerun
`scheduleNflUpdates`, and send the opt-in confirmation; otherwise send the
invalid-frequency message and change nothing else. -/
def stopTask : List CronTask → Nat → List CronTask
  | [], _ => []
  | t :: ts, 0 => { t with running := false } :: ts
  | t :: ts, Nat.succ i => t :: stopTask ts i

/-- part_000 follow handler, see `stopTask` above for job stopping. -/
def followHandler (ok : Bool) (incomingMsg fromNumber : String) (s : AppState) : AppState :=
  match followFrequency incomingMsg with
  | some frequency =>
    let s1 :=
      match lookupS s.optInUsers fromNumber with
      | some u =>
        match u.job with
        | some j => { s with tasks := stopTask s.tasks j }
        | none => s
      | none => s
    let s2 := { s1 with
      optInUsers := insertS s1.optInUsers fromNumber
        ⟨(splitChar ',' (followTeamNames incomingMsg).data).map String.mk, frequency, none⟩ }
    let s3 := scheduleNflUpdates s2
    sendMessage ok
      ("You have opted in to receive updates for teams: " ++ followTeamNames incomingMsg
        ++ " every " ++ toString frequency ++ " minutes.") fromNumber s3
  | none => sendMessage ok "Please provide a valid frequency in minutes." fromNumber s

/-- State change of the part_000 finish-updates handler before its
confirmation send (webhook lines 95-98): if this number has a recorded job,
stop that task and delete the `job` field; otherwise do nothing. -/
def finishCore (n : String) (s : AppState) : AppState :=
  match lookupS s.optInUsers n with
  | some u =>
    match u.job with
    | some j =>
      { s with tasks := stopTask s.tasks j,
               optInUsers := insertS s.optInUsers n { u with job := none } }
    | none => s
  | none => s

/-- part_000 finish-updates handler (webhook lines 94-99):  the core step
followed by the opted-out confirmation send. -/
def finishUpdatesHandler (ok : Bool) (n : String) (s : AppState) : AppState :=
  sendMessage ok "You have successfully opted out of updates." n (finishCore n s)

/-- part_000 `handleMultipleTeams`: split on commas, trim each name, fetch
info for each, join with newlines and send. -/
def handleMultipleTeams (up : FetchResult) (ok : Bool) (teamNames fromNumber : String)
    (s : AppState) : AppState :=
  let names := (splitChar ',' teamNames.data).map (fun l => String.mk (trimChars l))
  sendMessage ok (joinWith "\n" (names.map (getTeamInfo up))) fromNumber s

/-- The welcome text of part_000 `sendWelcomeMessage`. -/
def welcomeMessage : String :=
  "🎉 Welcome to NFL Feed! 🏈\n\nHere are some commands you can use:\n- \"nfl scores\" 📊: Get the current NFL scores.\n- \"team [team name]\" 🏈: Get the stats for a specific team.\n- \"follow [team names] [minutes]\" 🏈: Receive updates for specific teams at your chosen interval.\n- \"finish updates\" 🚫: Stop receiving updates.\n\nEnjoy and stay tuned for NFL updates! 🏈"

/-- The message rendered by one firing of a part_000 cron task:
`teamUpdates = await Promise.all(user.teams.map(team => getTeamInfo(team)))`
joined with newlines. -/
def cronMessage (up : FetchResult) (teams : List String) : String :=
  joinWith "\n" ((teams.map (getTeamInfoF up)).map Prod.fst)

/-- Team-endpoint GETs performed by one firing of a part_000 cron task:
one per `getTeamInfo` call, so one per followed team entry. -/
def cronFetches (up : FetchResult) (teams : List String) : Nat :=
  ((teams.map (getTeamInfoF up)).map Prod.snd).sum

/-- One firing of a cron task registered by part_000 `scheduleNflUpdates`:
fetch the scoreboard (result unused by the message), fetch info for every
followed team, join, and send only when the joined message differs from
`lastMessages[number]`.  The second component is the number of
team-endpoint GETs the firing performed. -/
def cronCallback (up : FetchResult) (ok : Bool) (number : String) (teams : List String)
    (s : AppState) : AppState × Nat :=
  (if lookupS s.lastMessages number ≠ some (cronMessage up teams)
   then sendMessage ok (cronMessage up teams) number s
   else s, cronFetches up teams)

/-- One evaluation pass over the cron registry in which every running task
fires once (the instant where all schedules coincide), returning the total
number of team-endpoint GETs performed. -/
def evaluationPass (up : FetchResult) (ok : Bool) (s : AppState) : AppState × Nat :=
  s.tasks.foldl
    (fun acc t =>
      if t.running then
        let r := cronCallback up ok t.owner t.teams acc.1
        (r.1, acc.2 + r.2)
      else acc)
    (s, 0)

/-! ### First app.js variant (V1): `chalk` is used but never imported -/

/-- V1 `sendMessage` (app.js lines 45-78).  This variant never imports
`chalk`, so every console call that mentions it raises
`ReferenceError: chalk is not defined`.  Transcribing the body path by path:
the duplicate path hits `console.log(chalk.yellow(...))` before its `return`
and outside the `try`, so the error escapes; on a successful POST,
`console.log(chalk.green(...))` throws inside the `try` before
`lastMessages[number] = message`, and the catch then throws again at
`chalk.red`; on a failed POST the catch throws at `chalk.red`.  Hence the
POST may be dispatched, but `lastMessages` is never updated and an error
always escapes the call. -/
def sendMessageV1 (ok : Bool) (message number : String) (s : AppState) :
    AppState × Except JsError Unit :=
  if dupCheck (lookupS s.lastMessages number) message then
    (s, Except.error (.referenceError "chalk"))
  else if ok then
    ({ s with sent := s.sent ++ [(number, message)] }, Except.error (.referenceError "chalk"))
  else
    (s, Except.error (.referenceError "chalk"))

/-- One firing of a cron task in V1 (app.js lines 223-231): the callback has
no try/catch of its own and calls `sendMessage(message, number)` without
awaiting or catching, so the `ReferenceError` raised by every V1
`sendMessage` call escapes the scheduler callback as an unhandled
rejection. -/
def cronCallbackV1 (up : FetchResult) (ok : Bool) (number : String) (teams : List String)
    (s : AppState) : AppState × Except JsError Unit :=
  if lookupS s.lastMessages number ≠ some (cronMessage up teams)
  then sendMessageV1 ok (cronMessage up teams) number s
  else (s, Except.ok ())

/-! ### Second app.js variant (V2) -/

/-- V2 `sendMessage` (app.js lines 351-365): no duplicate check and no
bookkeeping of any kind; POST and log the failure if any. -/
def sendMessageV2 (ok : Bool) (message number : String) (s : AppState) : AppState :=
  if ok then { s with sent := s.sent ++ [(number, message)] } else s

/-- V2 `fetchTeamInfo` (app.js lines 379-388): on success, the matched team
record `|| null`; the catch for a network/parse failure ALSO returns
`null`, so an upstream outage and a nonexistent team are indistinguishable
to callers. -/
def fetchTeamInfo (up : FetchResult) (teamName : String) : Option TeamRec :=
  match up with
  | .err => none
  | .ok teams => teams.find? (fun t => lowerStr t.displayName == lowerStr teamName)

/-- V2 team command handler (app.js lines 486-491), reduced to the message
it sends: a recap when `fetchTeamInfo` returned a record (the recap
rendering needs a further stats fetch and is passed in as `recap`),
otherwise the not-found line. -/
def teamCommandV2 (up : FetchResult) (recap : TeamRec → String) (fullTeamName : String) :
    String :=
  match fetchTeamInfo up fullTeamName with
  | some t => recap t
  | none => "Team " ++ fullTeamName ++ " not found."

/-- V2 `set frequency` handler core (app.js lines 523-534): register one
more cron task for the requesting number; nothing is stored per user and no
previous task is cancelled, so tasks only accumulate. -/
def setFrequencyV2 (minutes : Int) (fromNumber : String) (s : AppState) : AppState :=
  { s with tasks := s.tasks ++ [⟨minutes, fromNumber, [], true⟩] }

/-- V2 `stop updates` core (app.js line 537):
`cron.getTasks().forEach(task => task.stop())` — stop EVERY registered
task, whoever registered it; the requesting number is not consulted. -/
def stopUpdatesV2 (s : AppState) : AppState :=
  { s with tasks := s.tasks.map (fun t => { t with running := false }) }

/-- V2 `stop updates` handler (app.js lines 535-538): stop all tasks, then
confirm to the requester. -/
def stopUpdatesHandlerV2 (ok : Bool) (fromNumber : String) (s : AppState) : AppState :=
  sendMessageV2 ok "Updates have been stopped." fromNumber (stopUpdatesV2 s)

/-! ### part_000 webhook endpoint -/

/-- `messages[0].text` of a webhook body, each level optional as in raw
JSON. -/
structure MsgText where
  body : Option String
deriving Repr, DecidableEq

/-- One element of the `messages` array; `sender` embeds the `.from`
field. -/
structure WaMessage where
  text : Option MsgText
  sender : Option String
deriving Repr, DecidableEq

/-- The `value` object of a change. -/
structure ChangeValue where
  messages : Option (List WaMessage)
deriving Repr, DecidableEq

/-- One element of the `changes` array. -/
structure WaChange where
  value : Option ChangeValue
deriving Repr, DecidableEq

/-- One element of the `entry` array. -/
structure WaEntry where
  changes : Option (List WaChange)
deriving Repr, DecidableEq

/-- A webhook request body (`req.body`). -/
structure WebhookBody where
  entry : Option (List WaEntry)
deriving Repr, DecidableEq

/-- Evaluation of `req.body.entry[0].changes[0].value.messages[0]` under JS
semantics: indexing past the end of an array yields `undefined` without
error, but every property access on `undefined` raises a TypeError. -/
def guardChain (entries : List WaEntry) : Except JsError (Option WaMessage) :=
  match entries.head? with
  | none => Except.error .typeError
  | some e =>
    match e.changes with
    | none => Except.error .typeError
    | some chs =>
      match chs.head? with
      | none => Except.error .typeError
      | some c =>
        match c.value with
        | none => Except.error .typeError
        | some v =>
          match v.messages with
          | none => Except.error .typeError
          | some msgs => Except.ok msgs.head?

/-- Whether the payload guard
`!req.body.entry || !req.body.entry[0].changes[0].value.messages[0]`
fails the body: `entry` is absent, or the access chain throws, or it yields
`undefined`.  (An array value for `entry` is always truthy in JS, even when
empty.) -/
def guardFails (b : WebhookBody) : Bool :=
  match b.entry with
  | none => true
  | some es =>
    match guardChain es with
    | Except.ok (some _) => false
    | Except.ok none => true
    | Except.error _ => true

/-- The HTTP response produced by the webhook POST handler. -/
inductive HttpResponse
  | ok200 (body : String)
  | bad400 (body : String)
  | err500 (body : String)
deriving Repr, DecidableEq

/-- part_000 command dispatch (webhook lines 70-102), after the incoming
message and number have been extracted. -/
def routeMessage (up : FetchResult) (sb : ScoreboardResult) (ok : Bool)
    (incomingMsg fromNumber : String) (s : AppState) : AppState :=
  let lowered := lowerStr incomingMsg
  let parts := (splitChar ' ' lowered.data).map String.mk
  if parts.head?.getD "" == "start" then
    sendMessage ok welcomeMessage fromNumber s
  else if lowered == "nfl scores" then
    sendMessage ok (getNflScores sb) fromNumber s
  else if leadsWith "team ".data lowered.data then
    sendMessage ok (getTeamInfo up (strTrim (strDrop 5 incomingMsg))) fromNumber s
  else if leadsWith "follow ".data lowered.data then
    followHandler ok incomingMsg fromNumber s
  else if lowered == "finish updates" then
    finishUpdatesHandler ok fromNumber s
  else
    handleMultipleTeams up ok incomingMsg fromNumber s

/-- part_000 webhook POST handler (lines 55-109).  The payload guard runs
first: a falsy `entry` or a falsy first message answers 400 before any
state is touched; a TypeError raised while evaluating the guard chain (or
while extracting `text.body`) is caught by the outer try/catch and answers
500, also before any state is touched.  Only after extraction does the
handler push the prompt and dispatch the command, answering 200.  A missing
`.from` is `undefined`, which JS coerces to the object key "undefined". -/
def webhookPost (up : FetchResult) (sb : ScoreboardResult) (ok : Bool) (body : WebhookBody)
    (s : AppState) : AppState × HttpResponse :=
  match body.entry with
  | none => (s, .bad400 "Invalid webhook payload")
  | some entries =>
    match guardChain entries with
    | Except.error _ => (s, .err500 "Internal server error")
    | Except.ok none => (s, .bad400 "Invalid webhook payload")
    | Except.ok (some msg) =>
      match msg.text with
      | none => (s, .err500 "Internal server error")
      | some t =>
        match t.body with
        | none => (s, .err500 "Internal server error")
        | some raw =>
          let incomingMsg := strTrim raw
          let fromNumber := msg.sender.getD "undefined"
          let s1 := { s with userPrompts := s.userPrompts ++ [incomingMsg] }
          (routeMessage up sb ok incomingMsg fromNumber s1, .ok200 "<Response></Response>")

/-! ### Concrete fixtures used by the claim theorems -/

/-- A team-list row for the New York Giants. -/
def giantsRec : TeamRec := ⟨"New York Giants", "8-3", "1st in NFC East"⟩

/-- A team-list row for the Kansas City Chiefs. -/
def chiefsRec : TeamRec := ⟨"Kansas City Chiefs", "9-1", "1st in AFC West"⟩

/-- A state in which subscribers 111 and 222 each have a running task
watching the same team. -/
def twoWatchersState : AppState :=
  { emptyState with
    optInUsers :=
      [("111", ⟨["kansas city chiefs"], 5, some 0⟩),
       ("222", ⟨["kansas city chiefs"], 5, some 1⟩)],
    tasks :=
      [⟨5, "111", ["kansas city chiefs"], true⟩,
       ⟨5, "222", ["kansas city chiefs"], true⟩] }

/-- A webhook body whose `value` object exists but has no `messages` field:
the guard chain itself throws a TypeError at `messages[0]`. -/
def missingMessagesBody : WebhookBody :=
  ⟨some [⟨some [⟨some ⟨none⟩⟩]⟩]⟩

/-- A webhook body whose `messages` array is present but empty: the guard
chain evaluates to an absent first message without throwing. -/
def emptyMessagesBody : WebhookBody :=
  ⟨some [⟨some [⟨some ⟨some []⟩⟩]⟩]⟩

/-- A state in which subscriber 111 is opted in with a recorded running
task. -/
def oneSubscriberState : AppState :=
  { emptyState with
    optInUsers := [("111", ⟨["chiefs"], 5, some 0⟩)],
    tasks := [⟨5, "111", ["chiefs"], true⟩] }

/-- Projection of a user record to the fields the follow command stores
(everything except the scheduler-managed `job` index). -/
def subView (u : UserRec) : List String × Int := (u.teams, u.frequency)

/-! ### Helper lemmas on the association-list operations -/

theorem lookupS_insertS_self {α : Type} (l : List (String × α)) (k : String) (v : α) :
    lookupS (insertS l k v) k = some v := by
  induction l with
  | nil => simp [insertS, lookupS]
  | cons p rest ih =>
    obtain ⟨k', v'⟩ := p
    by_cases h : k' = k
    · simp [insertS, lookupS, h]
    · simp [insertS, lookupS, h, ih]

theorem lookupS_insertS_ne {α : Type} (l : List (String × α)) (k n : String) (v : α)
    (h : k ≠ n) : lookupS (insertS l k v) n = lookupS l n := by
  induction l with
  | nil => simp [insertS, lookupS, h]
  | cons p rest ih =>
    obtain ⟨k', v'⟩ := p
    by_cases hk : k' = k
    · subst hk
      simp [insertS, lookupS, h]
    · by_cases hn : k' = n
      · simp [insertS, lookupS, hk, hn, Ne.symm h]
      · simp [insertS, lookupS, hk, hn, ih]

theorem dupCheck_eq_some {last : Option String} {m : String} (h : dupCheck last m = true) :
    last = some m := by
  cases last with
  | none => simp [dupCheck] at h
  | some prev =>
    simp [dupCheck] at h
    rw [h.2]

/-! ### Helper lemmas on `sendMessage` -/

theorem sendMessage_optInUsers (ok : Bool) (m n : String) (s : AppState) :
    (sendMessage ok m n s).optInUsers = s.optInUsers := by
  unfold sendMessage
  split
  · rfl
  · split <;> rfl

theorem sendMessage_tasks (ok : Bool) (m n : String) (s : AppState) :
    (sendMessage ok m n s).tasks = s.tasks := by
  unfold sendMessage
  split
  · rfl
  · split <;> rfl

theorem sendMessage_sent_length (ok : Bool) (m n : String) (s : AppState) :
    (sendMessage ok m n s).sent.length ≤ s.sent.length + 1 := by
  unfold sendMessage
  split
  · exact Nat.le_succ _
  · split
    · simp
    · exact Nat.le_succ _

theorem lookupS_sendMessage_true (m n : String) (s : AppState) :
    lookupS (sendMessage true m n s).lastMessages n = some m := by
  unfold sendMessage
  split
  · next h => exact dupCheck_eq_some h
  · simp [lookupS_insertS_self]

theorem sendMessage_dup (ok : Bool) (m n : String) (s : AppState)
    (h : lookupS s.lastMessages n = some m) (hm : m ≠ "") :
    sendMessage ok m n s = s := by
  unfold sendMessage
  rw [h]
  have hd : dupCheck (some m) m = true := by simp [dupCheck, hm]
  rw [hd]
  simp

/-! ### Helper lemmas on the finish-updates core and the scheduler loop -/

theorem finishCore_job_none (n : String) (s : AppState) (u : UserRec)
    (h : lookupS (finishCore n s).optInUsers n = some u) : u.job = none := by
  unfold finishCore at h
  split at h
  · split at h
    · rw [lookupS_insertS_self] at h
      cases h
      rfl
    · simp_all
  · simp_all

theorem finishCore_noop (n : String) (s : AppState)
    (h : ∀ u, lookupS s.optInUsers n = some u → u.job = none) : finishCore n s = s := by
  unfold finishCore
  cases hl : lookupS s.optInUsers n with
  | none => rfl
  | some u =>
    dsimp only
    rw [h u hl]

theorem finishUpdatesHandler_def (ok : Bool) (n : String) (s : AppState) :
    finishUpdatesHandler ok n s
      = sendMessage ok "You have successfully opted out of updates." n (finishCore n s) :=
  rfl

theorem scheduleUser_view (s : AppState) (k n : String) :
    (lookupS (scheduleUser s k).optInUsers n).map subView
      = (lookupS s.optInUsers n).map subView := by
  unfold scheduleUser
  cases hl : lookupS s.optInUsers k with
  | none => rfl
  | some u =>
    by_cases ht : u.teams.length > 0
    · simp only [if_pos ht]
      by_cases hk : k = n
      · subst hk
        simp only [lookupS_insertS_self, hl]
        rfl
      · simp only [lookupS_insertS_ne _ _ _ _ hk]
    · simp only [if_neg ht]

theorem scheduleNflUpdates_view (s : AppState) (n : String) :
    (lookupS (scheduleNflUpdates s).optInUsers n).map subView
      = (lookupS s.optInUsers n).map subView := by
  unfold scheduleNflUpdates
  generalize s.optInUsers.map Prod.fst = keys
  induction keys generalizing s with
  | nil => rfl
  | cons k ks ih => rw [List.foldl_cons, ih, scheduleUser_view]

/-! ### Claim theorems -/

/-- C2 amended: if two consecutive firings of a subscriber's part_000 cron
job compute an identical payload and the POST succeeds, the dispatcher is
invoked at most once across both firings (the outbound log grows by at most
one entry over the first firing, and the second firing returns the state of
the first unchanged).  There is no last-delivery timestamp in the code, so
nothing is advanced on the suppressed firing: the cron expression alone
determines the cadence. -/
theorem C2_amended_duplicate_pass_noop (up : FetchResult) (n : String) (ts : List String)
    (s : AppState) :
    (cronCallback up true n ts (cronCallback up true n ts s).1).1
      = (cronCallback up true n ts s).1 ∧
    ((cronCallback up true n ts s).1).sent.length ≤ s.sent.length + 1 := by
  have key : ∀ s' : AppState, lookupS s'.lastMessages n = some (cronMessage up ts) →
      (cronCallback up true n ts s').1 = s' := by
    intro s' h'
    unfold cronCallback
    simp [h']
  have after : lookupS ((cronCallback up true n ts s).1).lastMessages n
      = some (cronMessage up ts) := by
    unfold cronCallback
    by_cases h : lookupS s.lastMessages n = some (cronMessage up ts)
    · simp [h]
    · simp only [ne_eq, h, not_false_iff, if_pos]
      exact lookupS_sendMessage_true _ n s
  refine ⟨key _ after, ?_⟩
  unfold cronCallback
  split
  · exact sendMessage_sent_length _ _ _ _
  · exact Nat.le_succ _

/-- C3 amended: the part_000 follow handler validates only that the
trailing token of the command parses as an integer.  When it does not
parse, the handler degenerates to sending the invalid-frequency message and
leaves `optInUsers` unchanged; when it parses to any integer f — including
0 and negative values, i.e. below any positive minimum — the stored
subscription for the sender becomes exactly the split team list with
cadence f: no minimum check, no InvalidCadence error, no clamping. -/
theorem C3_amended_frequency_validation (ok : Bool) (msg n : String) (s : AppState) :
    (followFrequency msg = none →
      followHandler ok msg n s
        = sendMessage ok "Please provide a valid frequency in minutes." n s ∧
      (followHandler ok msg n s).optInUsers = s.optInUsers) ∧
    (∀ f : Int, followFrequency msg = some f →
      (lookupS (followHandler ok msg n s).optInUsers n).map subView
        = some ((splitChar ',' (followTeamNames msg).data).map String.mk, f)) := by
  constructor
  · intro h
    have he : followHandler ok msg n s
        = sendMessage ok "Please provide a valid frequency in minutes." n s := by
      unfold followHandler
      rw [h]
    exact ⟨he, by rw [he, sendMessage_optInUsers]⟩
  · intro f h
    unfold followHandler
    rw [h]
    dsimp only
    rw [sendMessage_optInUsers, scheduleNflUpdates_view]
    dsimp only
    rw [lookupS_insertS_self]
    rfl

/-- C3 amended witness: the amended validation theorem applied at concrete
inputs — a non-numeric trailing token is rejected leaving subscriptions
untouched, and a numeric one is stored verbatim. -/
theorem C3_amended_witness :
    followHandler true "follow chiefs x" "111" emptyState
      = sendMessage true "Please provide a valid frequency in minutes." "111" emptyState ∧
    (lookupS (followHandler true "follow chiefs 7" "111" emptyState).optInUsers "111").map
        subView = some (["chiefs 7"], 7) := by
  constructor
  · exact ((C3_amended_frequency_validation true "follow chiefs x" "111" emptyState).1 rfl).1
  · have h := (C3_amended_frequency_validation true "follow chiefs 7" "111" emptyState).2 7 rfl
    rw [h]
    rfl

/-- C8 amended: the second of two consecutive finish-updates calls never
changes the subscription core — `optInUsers` and `tasks` are identical
after it, whatever the outcomes of the two confirmation sends — and when
the first call confirmation send succeeded, the second call returns the
state of the first entirely unchanged (the job field is already gone, no
task is stopped again, and the duplicate check suppresses the repeated
confirmation).  The handler has no failing path, so the second call raises
no error in any case; only a confirmation re-delivery after a failed first
send escapes full idempotence (see the counterexample). -/
theorem C8_amended_remove_idempotent (ok1 ok2 : Bool) (n : String) (s : AppState) :
    (finishUpdatesHandler ok2 n (finishUpdatesHandler ok1 n s)).optInUsers
      = (finishUpdatesHandler ok1 n s).optInUsers ∧
    (finishUpdatesHandler ok2 n (finishUpdatesHandler ok1 n s)).tasks
      = (finishUpdatesHandler ok1 n s).tasks ∧
    finishUpdatesHandler ok2 n (finishUpdatesHandler true n s)
      = finishUpdatesHandler true n s := by
  have hcore : ∀ b : Bool,
      finishCore n (finishUpdatesHandler b n s) = finishUpdatesHandler b n s := by
    intro b
    apply finishCore_noop
    intro u hu
    rw [finishUpdatesHandler_def, sendMessage_optInUsers] at hu
    exact finishCore_job_none n s u hu
  refine ⟨?_, ?_, ?_⟩
  · rw [finishUpdatesHandler_def ok2 n (finishUpdatesHandler ok1 n s), hcore ok1,
      sendMessage_optInUsers]
  · rw [finishUpdatesHandler_def ok2 n (finishUpdatesHandler ok1 n s), hcore ok1,
      sendMessage_tasks]
  · rw [finishUpdatesHandler_def ok2 n (finishUpdatesHandler true n s), hcore true,
      finishUpdatesHandler_def true n s]
    exact sendMessage_dup ok2 _ n _ (lookupS_sendMessage_true _ n _) (by decide)

/-- C10 amended: a webhook POST whose body fails the payload guard leaves
the returned state exactly the input state — no prompt is recorded, no
subscription or dedup entry changes, and no message is sent — and the
response code is pinned by the shape of the body: 400 when `entry` is
absent, 400 when the guard chain evaluates to an absent first message
(e.g. an empty `messages` array), and 500 when the guard chain itself
throws a TypeError on a missing intermediate field. -/
theorem C10_amended_guard_failure_no_state_change (up : FetchResult) (sb : ScoreboardResult)
    (ok : Bool) (body : WebhookBody) (s : AppState) (h : guardFails body = true) :
    (webhookPost up sb ok body s).1 = s ∧
    (body.entry = none →
      (webhookPost up sb ok body s).2 = HttpResponse.bad400 "Invalid webhook payload") ∧
    (∀ es, body.entry = some es → guardChain es = Except.ok none →
      (webhookPost up sb ok body s).2 = HttpResponse.bad400 "Invalid webhook payload") ∧
    (∀ es e, body.entry = some es → guardChain es = Except.error e →
      (webhookPost up sb ok body s).2 = HttpResponse.err500 "Internal server error") := by
  unfold webhookPost
  unfold guardFails at h
  cases hb : body.entry with
  | none =>
    refine ⟨rfl, fun _ => rfl, ?_, ?_⟩
    · intro es hes hce
      exact Option.noConfusion hes
    · intro es e hes hce
      exact Option.noConfusion hes
  | some es0 =>
    rw [hb] at h
    dsimp only at h ⊢
    cases hc : guardChain es0 with
    | error e0 =>
      refine ⟨rfl, ?_, ?_, ?_⟩
      · intro hne
        exact Option.noConfusion hne
      · intro es hes hce
        injection hes with hes'
        subst hes'
        rw [hc] at hce
        exact Except.noConfusion hce
      · intro es e hes hce
        rfl
    | ok om =>
      rw [hc] at h
      cases om with
      | none =>
        refine ⟨rfl, ?_, ?_, ?_⟩
        · intro hne
          exact Option.noConfusion hne
        · intro es hes hce
          rfl
        · intro es e hes hce
          injection hes with hes'
          subst hes'
          rw [hc] at hce
          exact Except.noConfusion hce
      | some mm =>
        dsimp only at h
        exact Bool.noConfusion h

/-- C10 amended witness: the amended guard theorem applied to two concrete
bodies — one with no `entry` field and one whose `messages` array is
present but empty (the guard chain yields an absent first message).  Both
are answered 400 and both leave the state unchanged. -/
theorem C10_amended_witness :
    (webhookPost (.ok []) (.ok []) true ⟨none⟩ emptyState).1 = emptyState ∧
    (webhookPost (.ok []) (.ok []) true ⟨none⟩ emptyState).2
      = HttpResponse.bad400 "Invalid webhook payload" ∧
    (webhookPost (.ok []) (.ok []) true emptyMessagesBody emptyState).1 = emptyState ∧
    (webhookPost (.ok []) (.ok []) true emptyMessagesBody emptyState).2
      = HttpResponse.bad400 "Invalid webhook payload" := by
  have h1 := C10_amended_guard_failure_no_state_change (.ok []) (.ok []) true ⟨none⟩
    emptyState rfl
  have h2 := C10_amended_guard_failure_no_state_change (.ok []) (.ok []) true
    emptyMessagesBody emptyState rfl
  exact ⟨h1.1, h1.2.1 rfl, h2.1, h2.2.2.1 _ rfl rfl⟩

/-- C1: the claim says no per-subscriber scheduled tasks exist and that a
subscribe command never registers a new per-user recurring job.  Evaluating
the part_000/V1 code refutes it: the first follow command registers one
cron task for subscriber 111; a later follow by subscriber 222 reruns
`scheduleNflUpdates` over ALL opted-in users, growing the registry to three
tasks, two of which are running tasks owned by 111 (the old one is never
stopped, so jobs grow with the number of subscribers and with every follow
command). -/
theorem C1_follow_registers_per_user_jobs :
    (followHandler true "follow chiefs 5" "111" emptyState).tasks.length = 1 ∧
    (followHandler true "follow giants 3" "222"
        (followHandler true "follow chiefs 5" "111" emptyState)).tasks.length = 3 ∧
    ((followHandler true "follow giants 3" "222"
        (followHandler true "follow chiefs 5" "111" emptyState)).tasks.filter
      (fun t => t.owner == "111" && t.running)).length = 2 :=
  ⟨rfl, rfl, rfl⟩

/-- C2 counterexample: the claim says that when two consecutive passes
compute an identical payload, the last-delivery timestamp of the subscriber
advances on both passes.  In the code there is no delivery timestamp at
all: on the concrete run below the second pass returns a state equal
bit-for-bit to the state after the first pass (in particular the
bookkeeping entry for 111 is unchanged), so nothing advances on the second
pass; exactly one send happened across both passes. -/
theorem C2_counterexample_no_clock_advance :
    (cronCallback (.ok [giantsRec]) true "111" ["new york giants"]
        (cronCallback (.ok [giantsRec]) true "111" ["new york giants"] emptyState).1).1
      = (cronCallback (.ok [giantsRec]) true "111" ["new york giants"] emptyState).1 ∧
    ((cronCallback (.ok [giantsRec]) true "111" ["new york giants"] emptyState).1).sent.length
      = 1 :=
  ⟨rfl, rfl⟩

/-- C3 counterexample: the claim says a subscribe whose cadence is below
the configured minimum always fails with InvalidCadence and leaves any
pre-existing subscription unchanged.  Evaluating the follow handler on
cadence 0 (below any positive minimum) from a state with a pre-existing
subscription (teams ["giants"], cadence 10): the command is accepted with
an opt-in confirmation, and the stored subscription becomes
(["chiefs 0"], 0) — replaced, not rejected. -/
theorem C3_counterexample_zero_cadence_accepted :
    (lookupS (followHandler true "follow chiefs 0" "111"
        { emptyState with optInUsers := [("111", ⟨["giants"], 10, none⟩)] }).optInUsers
      "111").map subView = some (["chiefs 0"], 0) ∧
    (followHandler true "follow chiefs 0" "111"
        { emptyState with optInUsers := [("111", ⟨["giants"], 10, none⟩)] }).sent
      = [("111",
          "You have opted in to receive updates for teams: chiefs 0 every 0 minutes.")] :=
  ⟨rfl, rfl⟩

/-- C4: the claim says bookkeeping is updated only on successful dispatch,
updated when the send succeeds and left unchanged when it fails.  part_000
satisfies this (last two conjuncts), but the V1 variant of `sendMessage`
cited by the claim references the never-imported `chalk`: on a successful
POST the message IS dispatched, yet `lastMessages` is never updated and a
ReferenceError escapes (first three conjuncts) — the success-side update
never happens in V1. -/
theorem C4_chalk_blocks_bookkeeping :
    (sendMessageV1 true "Hello" "111" emptyState).1.sent = [("111", "Hello")] ∧
    (sendMessageV1 true "Hello" "111" emptyState).1.lastMessages = [] ∧
    (sendMessageV1 true "Hello" "111" emptyState).2
      = Except.error (.referenceError "chalk") ∧
    (sendMessage true "Hello" "111" emptyState).lastMessages = [("111", "Hello")] ∧
    sendMessage false "Hello" "111" emptyState = emptyState :=
  ⟨rfl, rfl, rfl, rfl, rfl⟩

/-- C5: the claim says a command issued by subscriber A never changes
subscriber B's scheduled update delivery.  Evaluating the V2 stop-updates
handler: subscriber 111 issues the command while 222 has a running task;
the handler stops EVERY registered task, so 222's task is stopped by 111's
command. -/
theorem C5_stop_updates_stops_other_subscribers :
    (stopUpdatesHandlerV2 true "111"
        { emptyState with tasks := [⟨5, "222", [], true⟩] }).tasks
      = [⟨5, "222", [], false⟩] ∧
    (stopUpdatesHandlerV2 true "111"
        { emptyState with tasks := [⟨5, "222", [], true⟩] }).sent
      = [("111", "Updates have been stopped.")] :=
  ⟨rfl, rfl⟩

/-- C6: the claim says an upstream failure must never produce a
team-not-found outcome.  In V2, `fetchTeamInfo` returns `none` both on a
network error and on a genuinely absent team, and the team command then
renders the same not-found message in both cases — an outage is
indistinguishable from nonexistence.  (part_000 `getTeamInfo`, last
conjunct, does return a distinct error string, confirming the conflation
in V2 is a slip.) -/
theorem C6_outage_reported_as_not_found :
    fetchTeamInfo .err "new york giants" = none ∧
    teamCommandV2 .err (fun t => "Team Recap for " ++ t.displayName) "new york giants"
      = "Team new york giants not found." ∧
    teamCommandV2 (.ok []) (fun t => "Team Recap for " ++ t.displayName) "new york giants"
      = "Team new york giants not found." ∧
    getTeamInfo .err "new york giants" = "Error fetching team info." :=
  ⟨rfl, rfl, rfl, rfl⟩

/-- C7: the claim says the upstream team fetch is invoked at most once per
team per evaluation pass.  Evaluating one pass over two running tasks that
watch the same single team (one distinct team overall, first conjunct): the
pass performs two team-endpoint GETs, because every `getTeamInfo` call
fetches the team list itself and there is no per-tick cache or dedup. -/
theorem C7_no_fetch_dedup_in_pass :
    ((twoWatchersState.tasks.map CronTask.teams).flatten.dedup.length = 1) ∧
    (evaluationPass (.ok [chiefsRec]) true twoWatchersState).2 = 2 :=
  ⟨rfl, rfl⟩

/-- C8 counterexample: the claim says calling finish updates twice in a
row causes no observable state change between the end of the first call
and the end of the second.  When the first call confirmation POST fails,
`lastMessages` is not updated, so the second call passes the duplicate
check, delivers the confirmation and records it: the state after the
second call differs from the state after the first — the outbound log
grows from empty to one message. -/
theorem C8_counterexample_failed_send_resends :
    finishUpdatesHandler true "111" (finishUpdatesHandler false "111" oneSubscriberState)
      ≠ finishUpdatesHandler false "111" oneSubscriberState ∧
    (finishUpdatesHandler true "111"
        (finishUpdatesHandler false "111" oneSubscriberState)).sent
      = [("111", "You have successfully opted out of updates.")] ∧
    (finishUpdatesHandler false "111" oneSubscriberState).sent = [] :=
  ⟨by decide, rfl, rfl⟩

/-- C9: the claim says every error raised inside the core is caught and
never crashes the scheduler loop.  In V1 every `sendMessage` call raises a
ReferenceError on the never-imported `chalk` (the catch block itself
throws), and the cron callback neither awaits nor catches the call, so on
the concrete firing below the error escapes the scheduler callback as an
unhandled rejection. -/
theorem C9_scheduler_callback_error_escapes :
    (cronCallbackV1 (.ok [giantsRec]) true "111" ["new york giants"] emptyState).2
      = Except.error (.referenceError "chalk") ∧
    (cronCallbackV1 (.ok [giantsRec]) true "111" ["new york giants"]
        emptyState).1.lastMessages = [] :=
  ⟨rfl, rfl⟩

/-- C10 counterexample: the claim says a webhook POST whose body fails the
payload guard (missing entry or missing the first message) is answered
with HTTP 400.  A body whose `value` object lacks the `messages` field is
certainly missing the first message, but evaluating the guard chain on it
throws a TypeError, which the outer catch answers with 500, not 400 (state
is still unchanged). -/
theorem C10_counterexample_missing_messages_500 :
    webhookPost (.ok []) (.ok []) true missingMessagesBody emptyState
      = (emptyState, .err500 "Internal server error") :=
  rfl

end NFLBot
